import Mathlib

/-!
Verification of the blindscan utility (src/blindscan.c).

The development shallowly embeds the program's logic:

* `bs_read` / `bs_write` (blindscan.c lines 142-198): the whole-buffer
  transfer loop over a trace of underlying syscall results;
* the scan session `blindscan` (lines 200-434): request submission, the
  status polling loop, and the candidate loop, modelled as a function from
  an environment (file-access flags, successive read results, a
  cancellation instant) to an event trace plus an outcome;
* candidate parsing (`read_candidate`, lines 271-289): `sscanf` with
  fourteen integer conversions plus the index cross-check;
* unit conversion and labels (lines 291-431): rounding to the nearest
  1000 in 32-bit unsigned arithmetic, band translation, and the
  enumeration-to-label switches (numeric codes are the fixed ABI values
  from linux/dvb/frontend.h);
* the device resolver `nim_sockets` (lines 436-480): the two-line-shape
  topology parse and the final lookup loop.

Machine integers are modelled as `Nat`/`Int` with explicit `% 2^32`
where the C source computes in `uint32_t`.
-/

/-- The characters accepted by C `isspace`, which `sscanf` skips before a
conversion. -/
def isSpaceC (c : Char) : Bool :=
  c == ' ' || c == '\t' || c == '\n' || c == '\x0b' || c == '\x0c' || c == '\r'

/-- Drop leading `isspace` characters, as `sscanf` does before `%d`. -/
def skipWs : List Char → List Char
  | [] => []
  | c :: cs => if isSpaceC c then skipWs cs else c :: cs

/-- Numeric value of a decimal digit character. -/
def digitVal (c : Char) : Nat := c.toNat - 48

/-- Split off the maximal run of leading decimal digits. -/
def takeDigits : List Char → List Char × List Char
  | [] => ([], [])
  | c :: cs =>
    if c.isDigit then
      let p := takeDigits cs
      (c :: p.1, p.2)
    else ([], c :: cs)

/-- Decimal digits to a natural number. -/
def digitsToNat (ds : List Char) : Nat :=
  ds.foldl (fun a c => a * 10 + digitVal c) 0

/-- One `%d` conversion of `sscanf`: an optional sign followed by at least
one digit; returns the value and the unconsumed rest.  Whitespace must be
skipped by the caller (`scanfInts` does). -/
def parseIntCore (cs : List Char) : Option (Int × List Char) :=
  match cs with
  | '-' :: rest =>
    match takeDigits rest with
    | ([], _) => none
    | (ds, rem) => some (-(digitsToNat ds : Int), rem)
  | '+' :: rest =>
    match takeDigits rest with
    | ([], _) => none
    | (ds, rem) => some ((digitsToNat ds : Int), rem)
  | _ =>
    match takeDigits cs with
    | ([], _) => none
    | (ds, rem) => some ((digitsToNat ds : Int), rem)

/-- Up to `n` successive integer conversions, as `sscanf` performs for a
format of `n` integer directives: each conversion skips whitespace and
stops the whole scan at the first failure. -/
def scanfInts : Nat → List Char → List Int
  | 0, _ => []
  | n + 1, cs =>
    match parseIntCore (skipWs cs) with
    | none => []
    | some (v, rest) => v :: scanfInts n rest

/-- A `Nat` reduced to the `uint32_t` range. -/
def u32 (n : Nat) : Nat := n % 4294967296

/-- The value a signed parse result takes when stored through `%u` into a
`uint32_t`. -/
def u32ofInt (v : Int) : Nat := (v % 4294967296).toNat

/-- `uint32_t` addition (blindscan.c computes `frequency + 10600000U` and
friends in 32-bit unsigned arithmetic). -/
def u32add (a b : Nat) : Nat := (a + b) % 4294967296

/-- `uint32_t` subtraction `a - b`, i.e. `(a + 2^32 - b) mod 2^32`. -/
def u32sub (a b : Nat) : Nat :=
  (a + (4294967296 - b % 4294967296)) % 4294967296

/-- Rounding to the nearest 1000, blindscan.c line 295/305:
`frequency = ((frequency + 500) / 1000) * 1000;` with `frequency` a
`uint32_t`, so the addition wraps modulo `2^32`. -/
def round1000 (f : Nat) : Nat := (f + 500) % 4294967296 / 1000 * 1000

/-- Band translation, blindscan.c lines 296-301: C-band uses
`5150000U - frequency`, Ku-band high adds `10600000U`, Ku-band low (the
default) adds `9750000U`, all in `uint32_t` arithmetic. -/
def bandFreq (cb hi : Bool) (r : Nat) : Nat :=
  if cb then u32sub 5150000 r
  else if hi then u32add r 10600000
  else u32add r 9750000

/-- Inversion switch, lines 311-322.  Codes from linux/dvb/frontend.h:
`INVERSION_OFF = 0`, `INVERSION_ON = 1`; everything else falls to the
default branch. -/
def inversionLabel (c : Int) : String :=
  if c = 0 then "INVERSION_OFF"
  else if c = 1 then "INVERSION_ON"
  else "INVERSION_AUTO"

/-- Pilot switch, lines 326-337.  `PILOT_ON = 0`, `PILOT_OFF = 1`. -/
def pilotLabel (c : Int) : String :=
  if c = 0 then "PILOT_ON"
  else if c = 1 then "PILOT_OFF"
  else "PILOT_AUTO"

/-- Inner-FEC switch, lines 341-379.  `FEC_1_2 = 1` through `FEC_8_9 = 8`,
`FEC_3_5 = 10`, `FEC_9_10 = 11`, `FEC_2_5 = 12`; the default branch
(including `FEC_NONE = 0` and `FEC_AUTO = 9`) yields `"FEC_AUTO"`. -/
def fecLabel (c : Int) : String :=
  if c = 1 then "FEC_1_2"
  else if c = 2 then "FEC_2_3"
  else if c = 3 then "FEC_3_4"
  else if c = 4 then "FEC_4_5"
  else if c = 5 then "FEC_5_6"
  else if c = 6 then "FEC_6_7"
  else if c = 7 then "FEC_7_8"
  else if c = 8 then "FEC_8_9"
  else if c = 10 then "FEC_3_5"
  else if c = 11 then "FEC_9_10"
  else if c = 12 then "FEC_2_5"
  else "FEC_AUTO"

/-- Modulation switch, lines 383-397.  `PSK_8 = 9`, `APSK_16 = 10`,
`APSK_32 = 11`; default `"QPSK"`. -/
def modulationLabel (c : Int) : String :=
  if c = 9 then "8PSK"
  else if c = 10 then "16APSK"
  else if c = 11 then "32APSK"
  else "QPSK"

/-- Roll-off switch, lines 401-412.  `ROLLOFF_20 = 1`, `ROLLOFF_25 = 2`;
default (including `ROLLOFF_35 = 0`) `"ROLLOFF_35"`. -/
def rolloffLabel (c : Int) : String :=
  if c = 1 then "ROLLOFF_20"
  else if c = 2 then "ROLLOFF_25"
  else "ROLLOFF_35"

/-- Delivery-system ternary, line 309.  `SYS_DVBS = 5`. -/
def deliveryLabel (c : Int) : String :=
  if c = 5 then "DVB-S" else "DVB-S2"

/-- One driver-reported transponder record, the fourteen fields of the
`sscanf` at lines 271-285 in order.  The `%u` fields are stored as their
`uint32_t` values. -/
structure TransponderCandidate where
  index : Int
  frequency : Nat
  symbol_rate : Nat
  delivery_system : Int
  inversion : Int
  pilot : Int
  fec_inner : Int
  modulation : Int
  rolloff : Int
  pls_mode : Int
  is_id : Int
  pls_code : Int
  t2mi_plp_id : Int
  t2mi_pid : Int
deriving DecidableEq

/-- Builds a record from the list of parsed integers exactly when all
fourteen conversions succeeded (`sscanf(...) == 14`). -/
def mkCandidate : List Int → Option TransponderCandidate
  | [ix, fr, sr, ds, inv, pil, fec, mo, ro, pm, ii, pc, plp, pid] =>
    some { index := ix, frequency := u32ofInt fr, symbol_rate := u32ofInt sr,
           delivery_system := ds, inversion := inv, pilot := pil,
           fec_inner := fec, modulation := mo, rolloff := ro,
           pls_mode := pm, is_id := ii, pls_code := pc,
           t2mi_plp_id := plp, t2mi_pid := pid }
  | _ => none

/-- Candidate parsing and validation, lines 270-289: fourteen integer
conversions must succeed and the record's self-reported index must equal
the requested one; otherwise the candidate is absent. -/
def read_candidate (s : String) (req : Int) : Option TransponderCandidate :=
  match mkCandidate (scanfInts 14 s.toList) with
  | none => none
  | some c => if c.index = req then some c else none

/-- The output line assembled at lines 291-431: polarity, converted
frequency, rounded symbol rate, labels, the three numeric PLS fields, and
the optional T2-MI pair when `t2mi_plp_id != -1`. -/
def formatLine (vert cb hi : Bool) (c : TransponderCandidate) : String :=
  "OK" ++ " " ++ (if vert then "VERTICAL" else "HORIZONTAL")
  ++ " " ++ toString (bandFreq cb hi (round1000 c.frequency))
  ++ " " ++ toString (round1000 c.symbol_rate)
  ++ " " ++ deliveryLabel c.delivery_system
  ++ " " ++ inversionLabel c.inversion
  ++ " " ++ pilotLabel c.pilot
  ++ " " ++ fecLabel c.fec_inner
  ++ " " ++ modulationLabel c.modulation
  ++ " " ++ rolloffLabel c.rolloff
  ++ " " ++ toString c.pls_mode
  ++ " " ++ toString c.is_id
  ++ " " ++ toString c.pls_code
  ++ (if c.t2mi_plp_id ≠ -1 then
        " " ++ toString c.t2mi_plp_id ++ " " ++ toString c.t2mi_pid
      else "")
  ++ "\n"

/-- Result of one underlying `read`/`write` call inside the transfer
loops of `bs_read`/`bs_write`: `ok n` is a non-negative return of `n`
bytes, `eintr` a failure with `errno == EINTR`, `errn` any other
failure. -/
inductive SysRes where
  | ok (n : Nat)
  | eintr
  | errn
deriving DecidableEq

/-- The transfer loop of lines 152-164 / 181-193: repeat the underlying
call while it is interrupted; stop on error or a zero-byte transfer;
otherwise advance.  Returns the final `todo` and the last raw return
value `rc`. -/
def bsLoop : List SysRes → Nat → Int → Nat × Int
  | _, 0, rc => (0, rc)
  | [], todo, rc => (todo, rc)
  | .eintr :: rest, todo + 1, rc => bsLoop rest (todo + 1) rc
  | .ok n :: rest, todo + 1, _ =>
    if n = 0 then (todo + 1, 0) else bsLoop rest (todo + 1 - n) (n : Int)
  | .errn :: _, todo + 1, _ => (todo + 1, -1)

/-- `bs_read`, lines 142-169: `-1` when the open fails, otherwise the loop
runs and the function returns `count - todo` when it is non-zero and the
last raw `rc` otherwise. -/
def bs_read (openOk : Bool) (trace : List SysRes) (count : Nat) : Int :=
  if openOk then
    let p := bsLoop trace count 0
    if (count - p.1 : Nat) ≠ 0 then ((count - p.1 : Nat) : Int) else p.2
  else -1

/-- `bs_write`, lines 171-198, structurally identical to `bs_read`. -/
def bs_write (openOk : Bool) (trace : List SysRes) (count : Nat) : Int :=
  bs_read openOk trace count

/-- How every caller in blindscan.c classifies a transfer result:
`ret < 0` is operation-failed (lines 235, 248, 263, 267). -/
def isFailure (r : Int) : Bool := r < 0

/-- The run configuration relevant to one scan: the four request fields
(global `uint32_t`s) and the polarity/band/LO flags. -/
structure ScanConfig where
  start : Nat
  stop : Nat
  srmin : Nat
  srmax : Nat
  vertical : Bool
  cband : Bool
  high : Bool

/-- The environment one `blindscan` invocation runs against: whether the
two device files pass the `access` checks, whether the request write
succeeds, the successive control-file read results (`none` is a failed
transfer), per-index info-file write successes and read results, and the
first signal-check instant at which `signal_status == SIGINT` holds
(`none` when the run is never cancelled). -/
structure SessionEnv where
  ctrlAccess : Bool
  infoAccess : Bool
  reqWriteOk : Bool
  ctrlReads : Nat → Option String
  infoWriteOk : Nat → Bool
  infoReads : Nat → Option String
  cancelAt : Option Nat

/-- Whether the `k`-th check of `signal_status` observes `SIGINT`: once
observed it stays observed (nothing ever clears the flag). -/
def cancelledAt (c : Option Nat) (k : Nat) : Bool :=
  match c with
  | none => false
  | some t => decide (t ≤ k)

/-- Observable events of one session: writes and reads on the two device
files, the 100 ms sleep, and an emitted output line. -/
inductive Ev where
  | ctrlWrite (msg : String)
  | ctrlRead
  | infoWrite (msg : String)
  | infoRead
  | sleep
  | emit (line : String)
deriving DecidableEq

/-- The request message of line 231: `"1 <start> <stop> <min> <max>"`. -/
def reqMsg (cfg : ScanConfig) : String :=
  "1 " ++ toString cfg.start ++ " " ++ toString cfg.stop ++ " "
  ++ toString cfg.srmin ++ " " ++ toString cfg.srmax

/-- The deactivate message of line 242: `"0 0 0 0 0"`. -/
def deactivateMsg : String := "0 0 0 0 0"

/-- The status parse of line 252: `sscanf(buf, "%d%d%d", ...)` with its
return value ignored, so each of `status`, `num_info`, `progress` keeps
its previous value when its conversion never happens. -/
def scanf3 (st : Int × Int × Int) (s : String) : Int × Int × Int :=
  match scanfInts 3 s.toList with
  | [] => st
  | [a] => (a, st.2.1, st.2.2)
  | [a, b] => (a, b, st.2.2)
  | a :: b :: c :: _ => (a, b, c)

/-- Result of the polling loop (lines 238-257): cancellation (after the
deactivate write), a failed control read (the session aborts), fuel
exhaustion (the driver never reports completion), or completion carrying
the next signal-check index and the final parsed state. -/
inductive PollRes where
  | cancelled
  | readFail
  | spin
  | done (k : Nat) (st : Int × Int × Int)
deriving DecidableEq

/-- The polling loop, lines 238-257.  `k` counts checks of
`signal_status`, `ridx` counts control-file reads, `st` is the triple
`(status, num_info, progress)` (its initial value models the
uninitialized C locals). -/
def pollLoop (env : SessionEnv) : Nat → Nat → Nat → Int × Int × Int → List Ev × PollRes
  | 0, _, _, _ => ([], .spin)
  | fuel + 1, k, ridx, st =>
    if cancelledAt env.cancelAt k then
      ([.ctrlWrite deactivateMsg], .cancelled)
    else
      match env.ctrlReads ridx with
      | none => ([.ctrlRead], .readFail)
      | some s =>
        let st1 := scanf3 st s
        if st1.1 = 0 then ([.ctrlRead], .done (k + 1) st1)
        else
          let r := pollLoop env fuel (k + 1) (ridx + 1) st1
          (.ctrlRead :: .sleep :: r.1, r.2)

/-- The body of one candidate iteration, lines 261-432: write the index,
read the response, parse and validate, and emit the formatted line only
for a valid record; any failure falls through to `continue`. -/
def candStep (cfg : ScanConfig) (env : SessionEnv) (i : Nat) : List Ev :=
  if env.infoWriteOk i then
    match env.infoReads i with
    | none => [.infoWrite (toString i), .infoRead]
    | some s =>
      match read_candidate s (i : Int) with
      | none => [.infoWrite (toString i), .infoRead]
      | some c =>
        [.infoWrite (toString i), .infoRead,
         .emit (formatLine cfg.vertical cfg.cband cfg.high c)]
  else [.infoWrite (toString i)]

/-- The candidate loop, line 259: `for (i = 0; i < num_info &&
signal_status != SIGINT; i++)`.  `rem` is the number of indices left,
`i` the current index, `k` the signal-check counter; the Boolean result
records whether the loop stopped on an observed signal (in which case
nothing more is written to the driver). -/
def candLoop (cfg : ScanConfig) (env : SessionEnv) : Nat → Nat → Nat → List Ev × Bool
  | _, _, 0 => ([], false)
  | k, i, rem + 1 =>
    if cancelledAt env.cancelAt k then ([], true)
    else
      let tr := candStep cfg env i
      let r := candLoop cfg env (k + 1) (i + 1) rem
      (tr ++ r.1, r.2)

/-- Overall outcome of one `blindscan` call. -/
inductive Outcome where
  | unavailable
  | spin
  | cancelledPoll
  | doneCand (cancelled : Bool)
deriving DecidableEq

/-- The scan session, blindscan.c lines 200-434: access checks, request
write, polling loop, then the candidate loop over `num_info` indices. -/
def blindscan (cfg : ScanConfig) (env : SessionEnv) (fuel : Nat)
    (st0 : Int × Int × Int) : List Ev × Outcome :=
  if env.ctrlAccess then
    if env.infoAccess then
      if env.reqWriteOk then
        match pollLoop env fuel 0 0 st0 with
        | (tr, .cancelled) => (.ctrlWrite (reqMsg cfg) :: tr, .cancelledPoll)
        | (tr, .readFail) => (.ctrlWrite (reqMsg cfg) :: tr, .unavailable)
        | (tr, .spin) => (.ctrlWrite (reqMsg cfg) :: tr, .spin)
        | (tr, .done k st) =>
          let r := candLoop cfg env k 0 st.2.1.toNat
          (.ctrlWrite (reqMsg cfg) :: tr ++ r.1, .doneCand r.2)
      else ([.ctrlWrite (reqMsg cfg)], .unavailable)
    else ([], .unavailable)
  else ([], .unavailable)

/-- Prefix test over character lists, mirroring
`strstr(line, pat) == line`. -/
def startsWithCL : List Char → List Char → Bool
  | [], _ => true
  | _ :: _, [] => false
  | p :: ps, c :: cs => p == c && startsWithCL ps cs

/-- Skip whitespace and run one integer conversion, returning just the
value. -/
def parseIntTok (cs : List Char) : Option Int :=
  match parseIntCore (skipWs cs) with
  | none => none
  | some p => some p.1

/-- The four socket slots, `int ids[4] = {-1, -1, -1, -1}` (line 442). -/
def nsInit : List Int := [-1, -1, -1, -1]

/-- One line of the topology walk, lines 450-464.  The state is the slot
array plus the socket index the pointer `id` currently refers to (`none`
before any header line, when `id` is still uninitialized).  `none` as a
result marks undefined behavior: a failed conversion leaves `val`
uninitialized, and a device-assignment line stores through `id`, which is
valid only after a header selected an index within the array. -/
def nsLine (ids : List Int) (cur : Option Int) (line : String) :
    Option (List Int × Option Int) :=
  if startsWithCL "NIM Socket".toList line.toList then
    match parseIntTok (line.toList.drop 10) with
    | none => none
    | some v => some (ids, some v)
  else if startsWithCL "\tFrontend_Device".toList line.toList then
    match line.toList.drop 16 with
    | ':' :: rest =>
      match parseIntTok rest with
      | none => none
      | some v =>
        match cur with
        | none => none
        | some n => if 0 ≤ n ∧ n < 4 then some (ids.set n.toNat v, cur) else none
    | _ => none
  else some (ids, cur)

/-- Fold of `nsLine` over the topology lines. -/
def nsParse : List String → List Int → Option Int → Option (List Int × Option Int)
  | [], ids, cur => some (ids, cur)
  | l :: ls, ids, cur =>
    match nsLine ids cur l with
    | none => none
    | some p => nsParse ls p.1 p.2

/-- The final lookup loop, lines 470-477: scan the slot array for an
entry EQUAL TO the requested slot number and return that entry, `-1`
otherwise. -/
def nsLookup : List Int → Int → Int
  | [], _ => -1
  | x :: xs, slot => if x = slot then x else nsLookup xs slot

/-- Outcome of `nim_sockets`: a frontend id (or `-1` for absent), or
undefined behavior reached during the topology walk. -/
inductive NSOut where
  | ok (fe : Int)
  | ub
deriving DecidableEq

/-- `nim_sockets`, lines 436-480.  `file` is `none` when
`/proc/bus/nim_sockets` cannot be opened, otherwise the list of its
lines. -/
def nim_sockets (file : Option (List String)) (slot : Int) : NSOut :=
  match file with
  | none => .ok (-1)
  | some lines =>
    match nsParse lines nsInit none with
    | none => .ub
    | some p => .ok (nsLookup p.1 slot)

/-- The spec's two-socket example topology: socket 0 has no device line,
socket 2 carries `Frontend_Device: 1`. -/
def topoEx : List String :=
  ["NIM Socket 0:", "\tType: DVB-S2", "NIM Socket 2:", "\tFrontend_Device: 1"]

/-- Default request configuration (the program's initial globals). -/
def cfgDefault : ScanConfig := ⟨950, 1950, 2, 45, false, false, false⟩

/-- Environment whose scan completes at once with two candidates while a
signal arrives between the final poll read and the first candidate
check. -/
def envCandCancel : SessionEnv :=
  { ctrlAccess := true, infoAccess := true, reqWriteOk := true,
    ctrlReads := fun n => if n = 0 then some "0 2 100" else none,
    infoWriteOk := fun _ => true, infoReads := fun _ => none,
    cancelAt := some 1 }

/-- Environment whose second status line is the single integer `0`. -/
def envShortStatus : SessionEnv :=
  { ctrlAccess := true, infoAccess := true, reqWriteOk := true,
    ctrlReads := fun n =>
      if n = 0 then some "1 5 10" else if n = 1 then some "0" else none,
    infoWriteOk := fun _ => true, infoReads := fun _ => none,
    cancelAt := none }

/-- Environment cancelled before anything is read. -/
def envEarlyCancel : SessionEnv :=
  { ctrlAccess := true, infoAccess := true, reqWriteOk := true,
    ctrlReads := fun _ => none, infoWriteOk := fun _ => true,
    infoReads := fun _ => none, cancelAt := some 0 }

/-- Environment that always returns an unparsable status line. -/
def envNoise : SessionEnv :=
  { ctrlAccess := true, infoAccess := true, reqWriteOk := true,
    ctrlReads := fun _ => some "abc", infoWriteOk := fun _ => true,
    infoReads := fun _ => none, cancelAt := none }

/-- Environment whose info file answers with an unparsable record. -/
def envInfoNoise : SessionEnv :=
  { ctrlAccess := true, infoAccess := true, reqWriteOk := true,
    ctrlReads := fun _ => none, infoWriteOk := fun _ => true,
    infoReads := fun _ => some "xx", cancelAt := none }

/-- The record parsed from a well-formed fourteen-integer response at
index 0. -/
def candEx : TransponderCandidate :=
  { index := 0, frequency := 1000, symbol_rate := 2000, delivery_system := 6,
    inversion := 0, pilot := 0, fec_inner := 1, modulation := 9, rolloff := 1,
    pls_mode := 0, is_id := 5, pls_code := 7, t2mi_plp_id := -1, t2mi_pid := 0 }

/-- C1: the resolver is claimed to return the frontend id recorded for
the requested slot, with `resolve(0) = absent` and `resolve(2) = 1` on
the example topology.  The code instead scans the slot array for an entry
whose VALUE equals the requested slot number (line 472 compares
`ids[i] == slot`, not `i == slot`), so on the example it returns absent
for slot 2 — and returns 1 for slot 1, although socket 1 was never
assigned.  Missing-file behavior and the slot-0 case do hold. -/
theorem c1_resolver_slot_lookup :
    nim_sockets (some topoEx) 2 = .ok (-1) ∧
    nim_sockets (some topoEx) 0 = .ok (-1) ∧
    nim_sockets none 2 = .ok (-1) ∧
    nim_sockets (some topoEx) 1 = .ok 1 ∧
    decide ((-1 : Int) = 1) = false := by
  refine ⟨by decide, by decide, by decide, by decide, by decide⟩

/-- C8: the slot array does hold exactly four entries initialized to
absent, but a device-assignment line with no preceding socket header is
not ignored: line 462 stores through the pointer `id`, which is still
uninitialized, i.e. undefined behavior. -/
theorem c8_orphan_device_line :
    nsInit.length = 4 ∧
    nsInit.all (fun x => x == -1) = true ∧
    nim_sockets (some ["\tFrontend_Device: 1"]) 0 = .ub := by
  refine ⟨by decide, by decide, by decide⟩

/-- C2 counterexample: a run whose scan completes immediately with two
candidates and whose cancellation is observed at the first
candidate-index boundary returns without ever writing the deactivate
message (the candidate loop of line 259 just falls out of the loop). -/
theorem c2_counterexample :
    (blindscan cfgDefault envCandCancel 5 (7, 7, 7)).2 = .doneCand true ∧
    ((blindscan cfgDefault envCandCancel 5 (7, 7, 7)).1.contains
      (Ev.ctrlWrite deactivateMsg)) = false ∧
    (blindscan cfgDefault envCandCancel 5 (7, 7, 7)).1.count Ev.infoRead = 0 := by
  refine ⟨by decide, by decide, by decide⟩

/-- C3 counterexample: on a non-empty request whose first underlying call
hits end-of-file, zero bytes are moved, yet `bs_read`/`bs_write` return
`0` — and every caller tests `ret < 0`, so `0` is not treated as
operation-failed. -/
theorem c3_counterexample :
    bs_read true [.ok 0] 5 = 0 ∧
    isFailure (bs_read true [.ok 0] 5) = false ∧
    bs_write true [.ok 0] 5 = 0 := by
  refine ⟨by decide, by decide, by decide⟩

/-- C5 counterexample: for rounded frequency 5151000 (reachable, e.g.
from raw 5150900) the C-band conversion is computed in `uint32_t`, so the
result is 4294966296 rather than the claimed integer difference
5150000 - 5151000 = -1000. -/
theorem c5_counterexample :
    round1000 5150900 = 5151000 ∧
    bandFreq true false 5151000 = 4294966296 ∧
    decide ((4294966296 : Int) = 5150000 - 5151000) = false := by
  refine ⟨by decide, by decide, by decide⟩

/-- C6 counterexample: after a first healthy status line `"1 5 10"`, the
line `"0"` parses only one of the three leading integers — yet the poll
loop terminates on it (carrying the stale `num_info = 5`) instead of
treating the tick as still active and polling again. -/
theorem c6_counterexample :
    (scanfInts 3 "0".toList).length = 1 ∧
    pollLoop envShortStatus 10 0 0 (7, 7, 7)
      = ([.ctrlRead, .sleep, .ctrlRead], .done 2 (0, 5, 10)) := by
  refine ⟨by decide, by decide⟩

/-- C9 counterexample: rounding is done in `uint32_t`, so for raw
frequency 4294966500 the first round gives 4294967000 but re-rounding
wraps `4294967000 + 500` past `2^32` and yields 0: the function is not
idempotent on all 32-bit values. -/
theorem c9_counterexample :
    round1000 4294966500 = 4294967000 ∧
    round1000 4294967000 = 0 ∧
    decide (round1000 (round1000 4294966500) = round1000 4294966500) = false := by
  refine ⟨by decide, by decide, by decide⟩

theorem bsLoop_zero (l : List SysRes) (rc : Int) : bsLoop l 0 rc = (0, rc) := by
  cases l with
  | nil => rfl
  | cons a as => cases a <;> rfl

theorem bsLoop_eintr (pre post : List SysRes) :
    ∀ todo rc, bsLoop (pre ++ .eintr :: post) todo rc = bsLoop (pre ++ post) todo rc := by
  induction pre with
  | nil =>
    intro todo rc
    cases todo with
    | zero => rw [bsLoop_zero, bsLoop_zero]
    | succ t => rfl
  | cons a pre ih =>
    intro todo rc
    cases todo with
    | zero => rw [bsLoop_zero, bsLoop_zero]
    | succ t =>
      cases a with
      | ok n =>
        simp only [List.cons_append, bsLoop]
        split
        · rfl
        · exact ih _ _
      | eintr =>
        simp only [List.cons_append, bsLoop]
        exact ih _ _
      | errn => rfl

theorem bs_read_eintr (openOk : Bool) (pre post : List SysRes) (count : Nat) :
    bs_read openOk (pre ++ .eintr :: post) count = bs_read openOk (pre ++ post) count := by
  unfold bs_read
  rw [bsLoop_eintr]

/-- C3: settled against the code: opening failure and zero-bytes-on-error
return `-1` (a Failure in the callers' `ret < 0` sense), interrupted
calls are retried transparently, and a partial transfer returns the byte
count actually moved.  The one divergence from the claim (the immediate
end-of-file case returns `0`, which callers do not treat as failed) is
exhibited by the counterexample theorem; this theorem states the amended
contract. -/
theorem c3_transfer_contract :
    (∀ (openOk : Bool) (pre post : List SysRes) (count : Nat),
      bs_read openOk (pre ++ .eintr :: post) count
        = bs_read openOk (pre ++ post) count) ∧
    (∀ tr count, bs_read false tr count = -1 ∧
      isFailure (bs_read false tr count) = true) ∧
    (∀ tr count, bs_read true (.errn :: tr) (count + 1) = -1 ∧
      isFailure (-1) = true) ∧
    (∀ tr count, bs_read true (.ok 0 :: tr) (count + 1) = 0 ∧
      isFailure 0 = false) ∧
    (∀ count n tr, 0 < n → n ≤ count →
      bs_read true (.ok n :: .errn :: tr) count = (n : Int)) ∧
    (∀ openOk tr count, bs_write openOk tr count = bs_read openOk tr count) := by
  refine ⟨bs_read_eintr, ?_, ?_, ?_, ?_, fun _ _ _ => rfl⟩
  · intro tr count
    constructor <;> simp [bs_read, isFailure]
  · intro tr count
    constructor
    · simp [bs_read, bsLoop]
    · simp [isFailure]
  · intro tr count
    constructor
    · simp [bs_read, bsLoop]
    · simp [isFailure]
  · intro count n tr h1 h2
    obtain ⟨t, rfl⟩ : ∃ t, count = t + 1 := ⟨count - 1, by omega⟩
    simp only [bs_read, if_true]
    rw [show bsLoop (SysRes.ok n :: SysRes.errn :: tr) (t + 1) 0
          = bsLoop (SysRes.errn :: tr) (t + 1 - n) (n : Int) from by
      simp only [bsLoop]
      rw [if_neg (by omega)]]
    rcases Nat.eq_zero_or_pos (t + 1 - n) with h3 | h3
    · rw [h3, bsLoop_zero]
      simp only []
      rw [if_pos (by omega)]
      congr 1
      omega
    · obtain ⟨u, hu⟩ : ∃ u, t + 1 - n = u + 1 := ⟨t - n, by omega⟩
      rw [hu]
      rw [show bsLoop (SysRes.errn :: tr) (u + 1) (n : Int) = (u + 1, -1) from rfl]
      simp only []
      rw [if_pos (by omega)]
      congr 1
      omega

theorem c3_transfer_contract_witness :
    bs_read true ([.ok 2] ++ .eintr :: [.errn]) 5 = bs_read true ([.ok 2] ++ [.errn]) 5 ∧
    bs_read false [] 3 = -1 ∧
    bs_read true (.errn :: []) (2 + 1) = -1 ∧
    bs_read true (.ok 0 :: []) (2 + 1) = 0 ∧
    bs_read true (.ok 2 :: .errn :: []) 5 = (2 : Int) ∧
    bs_write true [.ok 2] 2 = bs_read true [.ok 2] 2 :=
  ⟨c3_transfer_contract.1 true [.ok 2] [.errn] 5,
   (c3_transfer_contract.2.1 [] 3).1,
   (c3_transfer_contract.2.2.1 [] 2).1,
   (c3_transfer_contract.2.2.2.1 [] 2).1,
   c3_transfer_contract.2.2.2.2.1 5 2 [] (by decide) (by decide),
   c3_transfer_contract.2.2.2.2.2 true [.ok 2] 2⟩

theorem pollLoop_cancelled (env : SessionEnv) (fuel k ridx : Nat)
    (st : Int × Int × Int) (h : cancelledAt env.cancelAt k = true) :
    pollLoop env (fuel + 1) k ridx st = ([.ctrlWrite deactivateMsg], .cancelled) := by
  simp [pollLoop, h]

theorem candLoop_cancelled (cfg : ScanConfig) (env : SessionEnv) (k i rem : Nat)
    (h : cancelledAt env.cancelAt k = true) :
    candLoop cfg env k i (rem + 1) = ([], true) := by
  simp [candLoop, h]

/-- C2: amended.  Cancellation observed at the top of a poll iteration —
in particular before the first poll read — writes the deactivate message
to the control file before returning, with zero info-file reads; but
cancellation observed at a candidate-index boundary simply ends the
candidate loop, with no deactivate write (see the counterexample). -/
theorem c2_cancel_protocol :
    (∀ cfg env st fuel, env.ctrlAccess = true → env.infoAccess = true →
      env.reqWriteOk = true → env.cancelAt = some 0 →
      blindscan cfg env (fuel + 1) st
        = ([.ctrlWrite (reqMsg cfg), .ctrlWrite deactivateMsg], .cancelledPoll) ∧
      (blindscan cfg env (fuel + 1) st).1.count Ev.infoRead = 0) ∧
    (∀ env fuel k ridx st, cancelledAt env.cancelAt k = true →
      pollLoop env (fuel + 1) k ridx st = ([.ctrlWrite deactivateMsg], .cancelled)) ∧
    (∀ cfg env k i rem, cancelledAt env.cancelAt k = true →
      candLoop cfg env k i (rem + 1) = ([], true)) := by
  refine ⟨?_, fun env fuel k ridx st h => pollLoop_cancelled env fuel k ridx st h,
    fun cfg env k i rem h => candLoop_cancelled cfg env k i rem h⟩
  intro cfg env st fuel h1 h2 h3 h4
  have hc : cancelledAt env.cancelAt 0 = true := by rw [h4]; rfl
  have hb : blindscan cfg env (fuel + 1) st
      = ([.ctrlWrite (reqMsg cfg), .ctrlWrite deactivateMsg], .cancelledPoll) := by
    unfold blindscan
    rw [h1, h2, h3]
    rw [pollLoop_cancelled env fuel 0 0 st hc]
    rfl
  refine ⟨hb, ?_⟩
  rw [hb]
  rfl

theorem c2_cancel_protocol_witness :
    blindscan cfgDefault envEarlyCancel 1 (7, 7, 7)
      = ([.ctrlWrite (reqMsg cfgDefault), .ctrlWrite deactivateMsg], .cancelledPoll) ∧
    (blindscan cfgDefault envEarlyCancel 1 (7, 7, 7)).1.count Ev.infoRead = 0 ∧
    pollLoop envEarlyCancel 3 5 0 (7, 7, 7) = ([.ctrlWrite deactivateMsg], .cancelled) ∧
    candLoop cfgDefault envEarlyCancel 5 0 3 = ([], true) :=
  ⟨(c2_cancel_protocol.1 cfgDefault envEarlyCancel (7, 7, 7) 0 rfl rfl rfl rfl).1,
   (c2_cancel_protocol.1 cfgDefault envEarlyCancel (7, 7, 7) 0 rfl rfl rfl rfl).2,
   c2_cancel_protocol.2.1 envEarlyCancel 2 5 0 (7, 7, 7) (by decide),
   c2_cancel_protocol.2.2 cfgDefault envEarlyCancel 5 0 2 (by decide)⟩

theorem mkCandidate_length {l : List Int} {c : TransponderCandidate}
    (h : mkCandidate l = some c) : l.length = 14 := by
  unfold mkCandidate at h
  split at h
  · rfl
  · exact absurd h (by simp)

/-- C4: a response with fewer than fourteen parsable integer fields
yields `absent`, a successful parse implies all fourteen fields were
converted and the self-reported index equals the requested one, and a
dropped candidate produces no emitted output line — the iteration's
events are just the index write and the response read. -/
theorem c4_candidate_validation :
    (∀ s req, (scanfInts 14 s.toList).length < 14 → read_candidate s req = none) ∧
    (∀ s req c, read_candidate s req = some c →
      (scanfInts 14 s.toList).length = 14 ∧ c.index = req) ∧
    (∀ cfg env (i : Nat) s, env.infoWriteOk i = true → env.infoReads i = some s →
      read_candidate s (i : Int) = none →
      candStep cfg env i = [.infoWrite (toString i), .infoRead]) := by
  refine ⟨?_, ?_, ?_⟩
  · intro s req hlen
    unfold read_candidate
    cases hm : mkCandidate (scanfInts 14 s.toList) with
    | none => rfl
    | some c =>
      have := mkCandidate_length hm
      omega
  · intro s req c h
    unfold read_candidate at h
    cases hm : mkCandidate (scanfInts 14 s.toList) with
    | none =>
      simp only [hm] at h
      exact absurd h (by simp)
    | some c1 =>
      simp only [hm] at h
      by_cases hi : c1.index = req
      · rw [if_pos hi] at h
        cases h
        exact ⟨mkCandidate_length hm, hi⟩
      · rw [if_neg hi] at h
        exact absurd h (by simp)
  · intro cfg env i s h1 h2 h3
    simp [candStep, h1, h2, h3]

theorem c4_candidate_validation_witness :
    read_candidate "1 2 3" 0 = none ∧
    ((scanfInts 14 "0 1000 2000 6 0 0 1 9 1 0 5 7 -1 0".toList).length = 14 ∧
      candEx.index = 0) ∧
    candStep cfgDefault envInfoNoise 0 = [.infoWrite "0", .infoRead] :=
  ⟨c4_candidate_validation.1 "1 2 3" 0 (by decide),
   c4_candidate_validation.2.1 "0 1000 2000 6 0 0 1 9 1 0 5 7 -1 0" 0 candEx (by decide),
   c4_candidate_validation.2.2 cfgDefault envInfoNoise 0 "xx" rfl rfl (by decide)⟩

/-- C5: amended.  Band conversion is a pure function of the rounded
frequency and the two flags, computed in `uint32_t` arithmetic: C-band is
`(5150000 - r) mod 2^32` (the claimed plain difference whenever
`r ≤ 5150000`), Ku high `(r + 10600000) mod 2^32` and Ku low
`(r + 9750000) mod 2^32` (the claimed plain sums below `2^32`); the three
cited values at `r = 1200000` hold as stated. -/
theorem c5_band_conversion :
    (∀ hi r, r ≤ 5150000 → bandFreq true hi r = 5150000 - r) ∧
    (∀ r, r + 10600000 < 4294967296 → bandFreq false true r = r + 10600000) ∧
    (∀ r, r + 9750000 < 4294967296 → bandFreq false false r = r + 9750000) ∧
    (∀ hi r, bandFreq true hi r
      = (5150000 + (4294967296 - r % 4294967296)) % 4294967296) ∧
    (∀ r, bandFreq false true r = (r + 10600000) % 4294967296) ∧
    (∀ r, bandFreq false false r = (r + 9750000) % 4294967296) ∧
    bandFreq true false 1200000 = 3950000 ∧
    bandFreq false true 1200000 = 11800000 ∧
    bandFreq false false 1200000 = 10950000 := by
  refine ⟨?_, ?_, ?_, ?_, ?_, ?_, by decide, by decide, by decide⟩
  · intro hi r h
    simp only [bandFreq, u32sub, if_true]
    omega
  · intro r h
    simp [bandFreq, u32add]
    omega
  · intro r h
    simp [bandFreq, u32add]
    omega
  · intro hi r
    simp [bandFreq, u32sub]
  · intro r
    simp [bandFreq, u32add]
  · intro r
    simp [bandFreq, u32add]

theorem c5_band_conversion_witness :
    bandFreq true true 1200000 = 5150000 - 1200000 ∧
    bandFreq false true 1200000 = 1200000 + 10600000 ∧
    bandFreq false false 1200000 = 1200000 + 9750000 :=
  ⟨c5_band_conversion.1 true 1200000 (by decide),
   c5_band_conversion.2.1 1200000 (by decide),
   c5_band_conversion.2.2.1 1200000 (by decide)⟩

theorem scanf3_nil (st : Int × Int × Int) (s : String)
    (h : scanfInts 3 s.toList = []) : scanf3 st s = st := by
  unfold scanf3
  rw [h]

/-- C6: amended.  Line 252 ignores the `sscanf` return value, so a status
line in which no leading integer converts leaves `(status, num_info,
progress)` unchanged, and the loop indeed continues (sleeps and re-polls)
whenever the previously held status was active; but a line whose first
integer converts to 0 terminates the loop even when the remaining two
integers are missing (see the counterexample), keeping stale values for
them. -/
theorem c6_status_parse_tolerance :
    (∀ st s, scanfInts 3 s.toList = [] → scanf3 st s = st) ∧
    (∀ env fuel k ridx st s, cancelledAt env.cancelAt k = false →
      env.ctrlReads ridx = some s → scanfInts 3 s.toList = [] → st.1 ≠ 0 →
      (pollLoop env (fuel + 1) k ridx st).1
        = .ctrlRead :: .sleep :: (pollLoop env fuel (k + 1) (ridx + 1) st).1 ∧
      (pollLoop env (fuel + 1) k ridx st).2
        = (pollLoop env fuel (k + 1) (ridx + 1) st).2) := by
  refine ⟨scanf3_nil, ?_⟩
  intro env fuel k ridx st s hc hr hnil hst
  have hp : pollLoop env (fuel + 1) k ridx st
      = (.ctrlRead :: .sleep :: (pollLoop env fuel (k + 1) (ridx + 1) st).1,
         (pollLoop env fuel (k + 1) (ridx + 1) st).2) := by
    simp [pollLoop, hc, hr, scanf3_nil st s hnil, hst]
  exact ⟨by rw [hp], by rw [hp]⟩

theorem c6_status_parse_tolerance_witness :
    scanf3 (1, 2, 3) "abc" = (1, 2, 3) ∧
    (pollLoop envNoise 2 0 0 (1, 2, 3)).1
      = .ctrlRead :: .sleep :: (pollLoop envNoise 1 1 1 (1, 2, 3)).1 ∧
    (pollLoop envNoise 2 0 0 (1, 2, 3)).2 = (pollLoop envNoise 1 1 1 (1, 2, 3)).2 :=
  ⟨c6_status_parse_tolerance.1 (1, 2, 3) "abc" (by decide),
   (c6_status_parse_tolerance.2 envNoise 1 0 0 (1, 2, 3) "abc" rfl rfl
     (by decide) (by decide)).1,
   (c6_status_parse_tolerance.2 envNoise 1 0 0 (1, 2, 3) "abc" rfl rfl
     (by decide) (by decide)).2⟩

set_option maxHeartbeats 3200000 in
/-- C7: the switch statements map each recognized code to its distinct
documented label, every unrecognized code falls to the documented default
(`INVERSION_AUTO`, `PILOT_AUTO`, `FEC_AUTO`, `QPSK`, `ROLLOFF_35`,
`"DVB-S2"` for the delivery ternary), and every label produced is drawn
from the fixed documented set — never empty or garbage, never an
error. -/
theorem c7_enum_label_mapping :
    inversionLabel 0 = "INVERSION_OFF" ∧
    inversionLabel 1 = "INVERSION_ON" ∧
    (∀ c, c ≠ 0 → c ≠ 1 → inversionLabel c = "INVERSION_AUTO") ∧
    pilotLabel 0 = "PILOT_ON" ∧
    pilotLabel 1 = "PILOT_OFF" ∧
    (∀ c, c ≠ 0 → c ≠ 1 → pilotLabel c = "PILOT_AUTO") ∧
    fecLabel 1 = "FEC_1_2" ∧ fecLabel 2 = "FEC_2_3" ∧ fecLabel 3 = "FEC_3_4" ∧
    fecLabel 4 = "FEC_4_5" ∧ fecLabel 5 = "FEC_5_6" ∧ fecLabel 6 = "FEC_6_7" ∧
    fecLabel 7 = "FEC_7_8" ∧ fecLabel 8 = "FEC_8_9" ∧ fecLabel 10 = "FEC_3_5" ∧
    fecLabel 11 = "FEC_9_10" ∧ fecLabel 12 = "FEC_2_5" ∧
    (∀ c, c ∉ ([1, 2, 3, 4, 5, 6, 7, 8, 10, 11, 12] : List Int) →
      fecLabel c = "FEC_AUTO") ∧
    modulationLabel 9 = "8PSK" ∧
    modulationLabel 10 = "16APSK" ∧
    modulationLabel 11 = "32APSK" ∧
    (∀ c, c ∉ ([9, 10, 11] : List Int) → modulationLabel c = "QPSK") ∧
    rolloffLabel 1 = "ROLLOFF_20" ∧
    rolloffLabel 2 = "ROLLOFF_25" ∧
    (∀ c, c ∉ ([1, 2] : List Int) → rolloffLabel c = "ROLLOFF_35") ∧
    deliveryLabel 5 = "DVB-S" ∧
    (∀ c, c ≠ 5 → deliveryLabel c = "DVB-S2") ∧
    (∀ c, inversionLabel c ∈ ["INVERSION_OFF", "INVERSION_ON", "INVERSION_AUTO"]) ∧
    (∀ c, pilotLabel c ∈ ["PILOT_ON", "PILOT_OFF", "PILOT_AUTO"]) ∧
    (∀ c, fecLabel c ∈ ["FEC_1_2", "FEC_2_3", "FEC_3_4", "FEC_4_5", "FEC_5_6",
      "FEC_6_7", "FEC_7_8", "FEC_8_9", "FEC_3_5", "FEC_9_10", "FEC_2_5",
      "FEC_AUTO"]) ∧
    (∀ c, modulationLabel c ∈ ["8PSK", "16APSK", "32APSK", "QPSK"]) ∧
    (∀ c, rolloffLabel c ∈ ["ROLLOFF_20", "ROLLOFF_25", "ROLLOFF_35"]) ∧
    (∀ c, deliveryLabel c ∈ ["DVB-S", "DVB-S2"]) := by
  refine ⟨by decide, by decide, ?_, by decide, by decide, ?_,
    by decide, by decide, by decide, by decide, by decide, by decide,
    by decide, by decide, by decide, by decide, by decide, ?_,
    by decide, by decide, by decide, ?_, by decide, by decide, ?_,
    by decide, ?_, ?_, ?_, ?_, ?_, ?_, ?_⟩
  · intro c h0 h1
    simp [inversionLabel, h0, h1]
  · intro c h0 h1
    simp [pilotLabel, h0, h1]
  · intro c h
    simp only [List.mem_cons, List.mem_singleton] at h
    push_neg at h
    obtain ⟨h1, h2, h3, h4, h5, h6, h7, h8, h9, h10, h11⟩ := h
    simp [fecLabel, h1, h2, h3, h4, h5, h6, h7, h8, h9, h10, h11]
  · intro c h
    simp only [List.mem_cons, List.mem_singleton] at h
    push_neg at h
    obtain ⟨h1, h2, h3⟩ := h
    simp [modulationLabel, h1, h2, h3]
  · intro c h
    simp only [List.mem_cons, List.mem_singleton] at h
    push_neg at h
    obtain ⟨h1, h2⟩ := h
    simp [rolloffLabel, h1, h2]
  · intro c h
    simp [deliveryLabel, h]
  · intro c
    unfold inversionLabel
    split_ifs <;>
      (repeat first | exact List.mem_cons_self _ _ | apply List.mem_cons_of_mem)
  · intro c
    unfold pilotLabel
    split_ifs <;>
      (repeat first | exact List.mem_cons_self _ _ | apply List.mem_cons_of_mem)
  · intro c
    unfold fecLabel
    split_ifs <;>
      (repeat first | exact List.mem_cons_self _ _ | apply List.mem_cons_of_mem)
  · intro c
    unfold modulationLabel
    split_ifs <;>
      (repeat first | exact List.mem_cons_self _ _ | apply List.mem_cons_of_mem)
  · intro c
    unfold rolloffLabel
    split_ifs <;>
      (repeat first | exact List.mem_cons_self _ _ | apply List.mem_cons_of_mem)
  · intro c
    unfold deliveryLabel
    split_ifs <;>
      (repeat first | exact List.mem_cons_self _ _ | apply List.mem_cons_of_mem)

theorem c7_enum_label_mapping_witness :
    inversionLabel 99 = "INVERSION_AUTO" ∧
    pilotLabel 99 = "PILOT_AUTO" ∧
    fecLabel 99 = "FEC_AUTO" ∧
    modulationLabel 99 = "QPSK" ∧
    rolloffLabel 99 = "ROLLOFF_35" ∧
    deliveryLabel 99 = "DVB-S2" ∧
    fecLabel 99 ∈ ["FEC_1_2", "FEC_2_3", "FEC_3_4", "FEC_4_5", "FEC_5_6",
      "FEC_6_7", "FEC_7_8", "FEC_8_9", "FEC_3_5", "FEC_9_10", "FEC_2_5",
      "FEC_AUTO"] := by
  obtain ⟨-, -, hinv, -, -, hpil, -, -, -, -, -, -, -, -, -, -, -, hfec,
    -, -, -, hmod, -, -, hrol, -, hdel, -, -, hfm, -, -, -⟩ :=
    c7_enum_label_mapping
  exact ⟨hinv 99 (by decide) (by decide), hpil 99 (by decide) (by decide),
    hfec 99 (by decide), hmod 99 (by decide), hrol 99 (by decide),
    hdel 99 (by decide), hfm 99⟩

/-- C9: amended.  The rounding runs in `uint32_t`, so it is idempotent
for every 32-bit value except those in [4294966500, 4294966795], where
the first round yields 4294967000 and re-rounding wraps past `2^32` (see
the counterexample).  On the stated complement the claimed identity
holds. -/
theorem c9_round_idempotent :
    ∀ f : Nat, f < 4294967296 → f < 4294966500 ∨ 4294966796 ≤ f →
      round1000 (round1000 f) = round1000 f := by
  intro f hlt h
  rcases h with h | h
  · have h1 : (f + 500) % 4294967296 = f + 500 := Nat.mod_eq_of_lt (by omega)
    have hq : (f + 500) / 1000 * 1000 + 500 < 4294967296 := by
      have := Nat.div_mul_le_self (f + 500) 1000
      omega
    unfold round1000
    rw [h1, Nat.mod_eq_of_lt hq]
    have h3 : ((f + 500) / 1000 * 1000 + 500) / 1000 = (f + 500) / 1000 := by
      rw [Nat.mul_comm ((f + 500) / 1000) 1000, Nat.mul_add_div (by norm_num)]
      norm_num
    rw [h3]
  · have h1 : (f + 500) % 4294967296 = f + 500 - 4294967296 := by omega
    have h2 : (f + 500 - 4294967296) / 1000 = 0 := Nat.div_eq_of_lt (by omega)
    unfold round1000
    rw [h1, h2]

theorem c9_round_idempotent_witness :
    round1000 (round1000 1200100) = round1000 1200100 :=
  c9_round_idempotent 1200100 (by decide) (Or.inl (by decide))

/-- C10: when the C-band flag is set, the conversion of lines 296-301
takes the C-band branch and the high/low LO flag has no effect on the
result; the LO flag changes the result only when the C-band flag is
unset (the two Ku offsets differ at every rounded frequency). -/
theorem c10_cband_overrides_lo :
    (∀ hi hi2 r, bandFreq true hi r = bandFreq true hi2 r) ∧
    (∀ r, decide (bandFreq false true r = bandFreq false false r) = false) := by
  constructor
  · intro hi hi2 r
    simp [bandFreq]
  · intro r
    apply decide_eq_false
    simp [bandFreq, u32add]
    omega
